import Mathlib

/-!
Verification development for the ZenSpace AI meditation companion.

The application is a browser-based meditation app.  This file gives a shallow
embedding of the pieces of the source that the checked properties speak about:

* the Media Player state machine (src/components/MediaPlayer.tsx): play, pause,
  the progress loop, mute and ambient toggles, the speech-recognition result
  dispatcher and its error handler;
* the Generator pipeline (handleGenerate in src/components/Generator.tsx);
* the chat transcript logic (handleSend in src/components/ChatBot.tsx);
* the application shell routing (src/App.tsx).

Clock times, audio durations and progress percentages are modelled as
rationals; the browser refs that can be null are modelled as boolean
presence flags; asynchronous service calls are modelled by passing their
outcomes as explicit parameters.
-/

namespace ZenSpace

/-- Prefix test on character lists, the base of the substring search. -/
def isPrefixCL : List Char → List Char → Bool
  | [], _ => true
  | _ :: _, [] => false
  | a :: as, b :: bs => a == b && isPrefixCL as bs

/-- Contiguous-substring occurrence on character lists. -/
def containsCL (pat : List Char) : List Char → Bool
  | [] => isPrefixCL pat []
  | b :: bs => isPrefixCL pat (b :: bs) || containsCL pat bs

/-- JavaScript s.includes(pat): pat occurs as a contiguous substring of s. -/
def strIncludes (s pat : String) : Bool := containsCL pat.data s.data

/-- JavaScript s.toLowerCase(), restricted to the ASCII commands the player
uses. -/
def strToLower (s : String) : String := String.mk (s.data.map Char.toLower)

/-- JavaScript s.trim(): whitespace removed from both ends. -/
def strTrim (s : String) : String :=
  String.mk (((s.data.dropWhile Char.isWhitespace).reverse.dropWhile
    Char.isWhitespace).reverse)

/-- JavaScript falsiness of a trimmed string: true when s.trim() is empty. -/
def trimIsEmpty (s : String) : Bool := ((strTrim s).data).isEmpty

/-- Decoded audio payload, standing for a browser AudioBuffer: only its
duration is observable to the player logic. -/
structure AudioData where
  duration : ℚ
  deriving Repr, DecidableEq

/-- Volatile state of the MediaPlayer component: the five React state flags,
the clock refs (startTimeRef, pauseTimeRef), whether a progress-loop frame is
scheduled (animationFrameRef), the offset the current source was started at,
the gain value, and whether the ambient element is audibly playing. -/
structure PlayerState where
  isPlaying : Bool
  isMuted : Bool
  isAmbientOn : Bool
  progress : ℚ
  isListening : Bool
  startTime : ℚ
  pauseTime : ℚ
  loopActive : Bool
  sourceOffset : ℚ
  gain : ℚ
  ambientPlaying : Bool
  deriving Repr, DecidableEq

/-- State of the player right after mount, before the mount effect runs. -/
def initPlayerState : PlayerState where
  isPlaying := false
  isMuted := false
  isAmbientOn := false
  progress := 0
  isListening := false
  startTime := 0
  pauseTime := 0
  loopActive := false
  sourceOffset := 0
  gain := 1
  ambientPlaying := false

/-- One pass of updateProgress at clock time now: elapsed is now minus the
start epoch, the percentage divides by the buffer duration (with the
JavaScript fallback of 1 for a zero duration); at or beyond 100 percent the
loop clamps to 100, stops playing, resets the pause offset and does not
reschedule itself; otherwise it displays the percentage and reschedules. -/
def updateProgress (now duration : ℚ) (s : PlayerState) : PlayerState :=
  let current := now - s.startTime
  let d := if duration = 0 then 1 else duration
  let percent := current / d * 100
  if 100 ≤ percent then
    { s with isPlaying := false, progress := 100, pauseTime := 0,
             loopActive := false }
  else
    { s with progress := percent, loopActive := true }

/-- playAudio: returns unchanged unless the audio context, the session audio
buffer and the gain node are all present; otherwise starts a source at the
pending pause offset, records the start epoch as now minus that offset, sets
playing, and runs one synchronous updateProgress pass. -/
def playAudio (hasCtx hasBuffer hasGain : Bool) (now duration : ℚ)
    (s : PlayerState) : PlayerState :=
  if hasCtx && hasBuffer && hasGain then
    let offset := s.pauseTime
    updateProgress now duration
      { s with sourceOffset := offset, startTime := now - offset,
               isPlaying := true }
  else s

/-- pauseAudio: when a source and the audio context exist, stops the source,
records the pause offset as now minus the start epoch, clears playing and
cancels the scheduled progress frame. -/
def pauseAudio (hasSource hasCtx : Bool) (now : ℚ) (s : PlayerState) :
    PlayerState :=
  if hasSource && hasCtx then
    { s with pauseTime := now - s.startTime, isPlaying := false,
             loopActive := false }
  else s

/-- toggleMute: when the gain node exists, flips the muted flag and sets the
gain to 0 when muting and 1 when unmuting. -/
def toggleMute (hasGain : Bool) (s : PlayerState) : PlayerState :=
  if hasGain then
    let next := !s.isMuted
    { s with gain := if next then 0 else 1, isMuted := next }
  else s

/-- toggleAmbient: flips the ambient flag. -/
def toggleAmbient (s : PlayerState) : PlayerState :=
  { s with isAmbientOn := !s.isAmbientOn }

/-- setIsAmbientOn, as the voice branches call it with a literal value. -/
def setAmbient (b : Bool) (s : PlayerState) : PlayerState :=
  { s with isAmbientOn := b }

/-- The effect keyed on isPlaying and isAmbientOn: the ambient element plays
exactly when both hold, and is paused otherwise. -/
def syncAmbient (s : PlayerState) : PlayerState :=
  { s with ambientPlaying := s.isPlaying && s.isAmbientOn }

/-- Keyword set of the pause branch of the recognizer. -/
def pauseKeywords : List String := ["pause", "stop", "wait"]

/-- Keyword set of the play branch of the recognizer. -/
def playKeywords : List String := ["play", "start", "resume", "begin"]

/-- Keyword set of the mute branch of the recognizer. -/
def muteKeywords : List String := ["mute", "quiet", "silence"]

/-- Keyword set of the unmute branch of the recognizer. -/
def unmuteKeywords : List String := ["unmute", "sound", "volume"]

/-- Keyword set of the ambient-on branch of the recognizer. -/
def ambientOnKeywords : List String := ["nature on", "ambient on", "background on"]

/-- Keyword set of the ambient-off branch of the recognizer. -/
def ambientOffKeywords : List String := ["nature off", "ambient off", "background off"]

/-- Whether the command contains one of the keywords as a substring. -/
def hasKeyword (c : String) (ws : List String) : Bool :=
  ws.any (fun w => strIncludes c w)

/-- Body of recognition.onresult on an already lower-cased and trimmed
command: an if/else-if chain over the keyword sets, each branch guarded by a
fresh read of the corresponding state ref. -/
def dispatchCommand (hasCtx hasBuffer hasGain hasSource : Bool)
    (now duration : ℚ) (command : String) (s : PlayerState) : PlayerState :=
  if hasKeyword command pauseKeywords then
    (if s.isPlaying then pauseAudio hasSource hasCtx now s else s)
  else if hasKeyword command playKeywords then
    (if !s.isPlaying then playAudio hasCtx hasBuffer hasGain now duration s
     else s)
  else if hasKeyword command muteKeywords then
    (if !s.isMuted then toggleMute hasGain s else s)
  else if hasKeyword command unmuteKeywords then
    (if s.isMuted then toggleMute hasGain s else s)
  else if hasKeyword command ambientOnKeywords then
    (if !s.isAmbientOn then setAmbient true s else s)
  else if hasKeyword command ambientOffKeywords then
    (if s.isAmbientOn then setAmbient false s else s)
  else s

/-- recognition.onresult: lower-cases and trims the recognized transcript and
dispatches it. -/
def onResult (hasCtx hasBuffer hasGain hasSource : Bool) (now duration : ℚ)
    (transcript : String) (s : PlayerState) : PlayerState :=
  dispatchCommand hasCtx hasBuffer hasGain hasSource now duration
    (strTrim (strToLower transcript)) s

/-- recognition.onerror: no-speech and aborted return at once; not-allowed and
service-not-allowed force listening off when the effect instance is still
active; every other code is only logged. -/
def onRecognitionError (isEffectActive : Bool) (code : String)
    (s : PlayerState) : PlayerState :=
  if code == "no-speech" || code == "aborted" then s
  else if code == "not-allowed" || code == "service-not-allowed" then
    (if isEffectActive then { s with isListening := false } else s)
  else s

/-- Presence of the nullable browser refs the handlers consult. -/
structure AudioRefs where
  hasCtx : Bool
  hasBuffer : Bool
  hasGain : Bool
  hasSource : Bool
  deriving Repr, DecidableEq

/-- The events that can reach the mounted player: the UI buttons, a progress
frame firing, a recognized utterance, and a recognition error. -/
inductive PlayerEvent where
  | togglePlay (r : AudioRefs) (now duration : ℚ)
  | tick (now duration : ℚ)
  | muteClick (hasGain : Bool)
  | ambientClick
  | listenClick
  | voiceCommand (r : AudioRefs) (now duration : ℚ) (transcript : String)
  | recogError (isEffectActive : Bool) (code : String)
  deriving Repr, DecidableEq

/-- Effect of one event on the component state, before re-rendering. -/
def applyPlayerEvent : PlayerEvent → PlayerState → PlayerState
  | PlayerEvent.togglePlay r now duration, s =>
      if s.isPlaying then pauseAudio r.hasSource r.hasCtx now s
      else playAudio r.hasCtx r.hasBuffer r.hasGain now duration s
  | PlayerEvent.tick now duration, s =>
      if s.loopActive then updateProgress now duration s else s
  | PlayerEvent.muteClick hasGain, s => toggleMute hasGain s
  | PlayerEvent.ambientClick, s => toggleAmbient s
  | PlayerEvent.listenClick, s => { s with isListening := !s.isListening }
  | PlayerEvent.voiceCommand r now duration t, s =>
      onResult r.hasCtx r.hasBuffer r.hasGain r.hasSource now duration t s
  | PlayerEvent.recogError a e, s => onRecognitionError a e s

/-- One step of the mounted player: the event handler runs, then the effect
keyed on isPlaying and isAmbientOn re-synchronizes the ambient element. -/
def stepPlayer (e : PlayerEvent) (s : PlayerState) : PlayerState :=
  syncAmbient (applyPlayerEvent e s)

/-- Running the player from a mount state: the ambient-sync effect runs once
on mount, then the events are processed in order. -/
def runPlayer (es : List PlayerEvent) (s0 : PlayerState) : PlayerState :=
  es.foldl (fun s e => stepPlayer e s) (syncAmbient s0)

/-- MeditationSession record from src/types.ts; the optional audio buffer is
the decoded voiceover. -/
structure MeditationSession where
  id : String
  title : String
  description : String
  imagePrompt : String
  script : String
  imageUrl : Option String
  audioBuffer : Option AudioData
  deriving Repr, DecidableEq

/-- AppMode from src/types.ts. -/
inductive AppMode where
  | HOME
  | CREATE
  | CHAT
  | PLAYER
  deriving Repr, DecidableEq

/-- Top-level App state: the current mode and the session bound to the
player. -/
structure AppState where
  currentMode : AppMode
  activeSession : Option MeditationSession
  deriving Repr, DecidableEq

/-- handleSessionCreated in App.tsx: binds the new session and switches to
the player. -/
def handleSessionCreated (session : MeditationSession) (s : AppState) :
    AppState :=
  { s with activeSession := some session, currentMode := AppMode.PLAYER }

/-- closePlayer in App.tsx: switches back to the Generate view and leaves
activeSession alone. -/
def closePlayer (s : AppState) : AppState :=
  { s with currentMode := AppMode.CREATE }

/-- Message role from src/types.ts. -/
inductive Role where
  | user
  | model
  deriving Repr, DecidableEq

/-- Chat message from src/types.ts; the timestamp is an abstract clock
value. -/
structure Message where
  role : Role
  text : String
  timestamp : ℚ
  deriving Repr, DecidableEq

/-- Text of the initial greeting message of the ChatBot. -/
def greetingText : String :=
  "Hello! I\x27m your mindfulness companion. How are you feeling today?"

/-- Text appended in place of a reply when sendChatMessage throws. -/
def connectionFailureText : String :=
  "I\x27m having trouble connecting right now. Please try again."

/-- Initial transcript of the ChatBot: the greeting alone. -/
def initialMessages : List Message :=
  [{ role := Role.model, text := greetingText, timestamp := 0 }]

/-- State of the ChatBot component. -/
structure ChatState where
  input : String
  messages : List Message
  isLoading : Bool
  deriving Repr, DecidableEq

/-- ChatState on mount. -/
def initialChatState : ChatState where
  input := ""
  messages := initialMessages
  isLoading := false

/-- Completion of one sendChatMessage call: the resolved response text, or a
rejection. -/
inductive ChatOutcome where
  | success (responseText : String)
  | failure
  deriving Repr, DecidableEq

/-- handleSend in ChatBot.tsx, run to completion: returns unchanged on a
blank input or while a request is in flight; otherwise appends the user
message, clears the input, and on completion appends the response when it is
truthy, or the connectivity-failure message when the call threw. -/
def handleSend (tUser tBot : ℚ) (outcome : ChatOutcome) (s : ChatState) :
    ChatState :=
  if trimIsEmpty s.input || s.isLoading then s
  else
    let userMsg : Message := { role := Role.user, text := s.input,
                               timestamp := tUser }
    let afterUser := s.messages ++ [userMsg]
    match outcome with
    | ChatOutcome.success r =>
        if r.data.isEmpty then
          { input := "", messages := afterUser, isLoading := false }
        else
          { input := "",
            messages := afterUser ++
              [{ role := Role.model, text := r, timestamp := tBot }],
            isLoading := false }
    | ChatOutcome.failure =>
        { input := "",
          messages := afterUser ++
            [{ role := Role.model, text := connectionFailureText,
               timestamp := tBot }],
          isLoading := false }

/-- One send operation: the text typed into the input, the outcome of the
service call, and the clock values of the two appended messages. -/
structure SendOp where
  input : String
  outcome : ChatOutcome
  tUser : ℚ
  tBot : ℚ
  deriving Repr, DecidableEq

/-- Running a sequence of completed send operations: before each one the user
has typed the op input, then handleSend runs to completion. -/
def runSends (ops : List SendOp) (s : ChatState) : ChatState :=
  ops.foldl
    (fun s op => handleSend op.tUser op.tBot op.outcome { s with input := op.input })
    s

/-- The pair of messages one completed send is expected to contribute when
the response is non-empty or the call failed. -/
def sendPair (op : SendOp) : List Message :=
  match op.outcome with
  | ChatOutcome.success r =>
      [{ role := Role.user, text := op.input, timestamp := op.tUser },
       { role := Role.model, text := r, timestamp := op.tBot }]
  | ChatOutcome.failure =>
      [{ role := Role.user, text := op.input, timestamp := op.tUser },
       { role := Role.model, text := connectionFailureText,
         timestamp := op.tBot }]

/-- A send operation that runs (its input is not blank) and whose outcome is
a failure or a non-empty response text. -/
def opCompletes (op : SendOp) : Bool :=
  !(trimIsEmpty op.input) &&
    (match op.outcome with
     | ChatOutcome.success r => !(r.data.isEmpty)
     | ChatOutcome.failure => true)

/-- Plan returned by generateMeditationPlan. -/
structure Plan where
  title : String
  description : String
  script : String
  imagePrompt : String
  deriving Repr, DecidableEq

/-- Fallback image substituted when generateMeditationImage rejects. -/
def fallbackImageUrl : String := "https://picsum.photos/1920/1080"

/-- Generic user-facing error of the generation pipeline. -/
def genericErrorText : String :=
  "Something went wrong creating your session. Please try again."

/-- Outcome of one run of handleGenerate in Generator.tsx: the terminal error
string when the pipeline failed, whether the image and audio calls were ever
issued, and the session handed to onSessionCreated when the run succeeded. -/
structure GenRun where
  error : Option String
  calledImage : Bool
  calledAudio : Bool
  created : Option MeditationSession
  deriving Repr, DecidableEq

/-- handleGenerate in Generator.tsx: returns at once on a blank prompt; a
plan failure is caught before the image or audio calls are issued; otherwise
both calls run concurrently, an image rejection is replaced by the fallback
image, an audio rejection is rethrown and caught as a pipeline failure, and
on success the assembled session is handed to the caller. -/
def handleGenerate (sessionId : String) (prompt : String)
    (planRes : Except Unit Plan) (imageRes : Except Unit String)
    (audioRes : Except Unit AudioData) : GenRun :=
  if trimIsEmpty prompt then
    { error := none, calledImage := false, calledAudio := false,
      created := none }
  else
    match planRes with
    | Except.error _ =>
        { error := some genericErrorText, calledImage := false,
          calledAudio := false, created := none }
    | Except.ok plan =>
        let imageUrl := match imageRes with
          | Except.ok url => url
          | Except.error _ => fallbackImageUrl
        match audioRes with
        | Except.error _ =>
            { error := some genericErrorText, calledImage := true,
              calledAudio := true, created := none }
        | Except.ok buf =>
            { error := none, calledImage := true, calledAudio := true,
              created := some
                { id := sessionId, title := plan.title,
                  description := plan.description,
                  imagePrompt := plan.imagePrompt, script := plan.script,
                  imageUrl := some imageUrl, audioBuffer := some buf } }

/-- Sample plan used to instantiate the pipeline theorems, following the
example scenario of the specification. -/
def samplePlan : Plan where
  title := "Ocean Sunset Calm"
  description := "A calming ocean scene at dusk."
  script := "Breathe in slowly and watch the waves."
  imagePrompt := "ocean at sunset"

/-- Sample decoded audio payload. -/
def sampleAudio : AudioData where
  duration := 180

/-- C9: closing the player switches the application mode back to the Generate
view and leaves the active session binding unchanged. -/
theorem close_player_keeps_session (s : AppState) :
    (closePlayer s).currentMode = AppMode.CREATE ∧
      (closePlayer s).activeSession = s.activeSession :=
  ⟨rfl, rfl⟩

/-- C10: when the session has no audio buffer, or the audio context or gain
node is not initialized, playAudio returns the state unchanged: nothing
starts playing and progress and the pause offset keep their values. -/
theorem playAudio_missing_refs_noop (hasCtx hasBuffer hasGain : Bool)
    (now duration : ℚ) (s : PlayerState)
    (h : hasBuffer = false ∨ hasCtx = false ∨ hasGain = false) :
    playAudio hasCtx hasBuffer hasGain now duration s = s := by
  rcases h with h | h | h <;> simp [playAudio, h]

/-- Witness for C10: the auto-play pass on a session without audio leaves the
mount state untouched. -/
theorem playAudio_missing_refs_noop_witness :
    playAudio true false true 0 180 initPlayerState = initPlayerState :=
  playAudio_missing_refs_noop true false true 0 180 initPlayerState
    (Or.inl rfl)

/-- C5: whenever audio generation fails after a successful plan, the pipeline
ends failed with the generic error message and hands no session to the
caller, whatever the image outcome was. -/
theorem audio_failure_fatal (sessionId prompt : String) (plan : Plan)
    (imageRes : Except Unit String) (h : trimIsEmpty prompt = false) :
    handleGenerate sessionId prompt (Except.ok plan) imageRes
        (Except.error ())
      = { error := some genericErrorText, calledImage := true,
          calledAudio := true, created := none } := by
  cases imageRes <;> simp [handleGenerate, h]

/-- Witness for C5 at a concrete successful plan and image. -/
theorem audio_failure_fatal_witness :
    handleGenerate ("1") ("ocean at sunset") (Except.ok samplePlan)
        (Except.ok ("data:image/jpeg"))
        (Except.error ())
      = { error := some genericErrorText, calledImage := true,
          calledAudio := true, created := none } :=
  audio_failure_fatal ("1") ("ocean at sunset") samplePlan
    (Except.ok ("data:image/jpeg")) (by decide)

/-- C6: an image failure with a successful audio run does not fail the
pipeline: the session handed to the caller carries the fallback image
reference and the decoded audio buffer. -/
theorem image_failure_nonfatal (sessionId prompt : String) (plan : Plan)
    (buf : AudioData) (h : trimIsEmpty prompt = false) :
    handleGenerate sessionId prompt (Except.ok plan) (Except.error ())
        (Except.ok buf)
      = { error := none, calledImage := true, calledAudio := true,
          created := some
            { id := sessionId, title := plan.title,
              description := plan.description,
              imagePrompt := plan.imagePrompt, script := plan.script,
              imageUrl := some fallbackImageUrl,
              audioBuffer := some buf } } := by
  simp [handleGenerate, h]

/-- Witness for C6 at the example scenario of the specification. -/
theorem image_failure_nonfatal_witness :
    handleGenerate ("1") ("ocean at sunset") (Except.ok samplePlan)
        (Except.error ()) (Except.ok sampleAudio)
      = { error := none, calledImage := true, calledAudio := true,
          created := some
            { id := "1", title := samplePlan.title,
              description := samplePlan.description,
              imagePrompt := samplePlan.imagePrompt,
              script := samplePlan.script,
              imageUrl := some fallbackImageUrl,
              audioBuffer := some sampleAudio } } :=
  image_failure_nonfatal ("1") ("ocean at sunset") samplePlan sampleAudio
    (by decide)

/-- C7: when plan generation fails, neither the image call nor the audio call
is issued and the run ends failed with the generic error message. -/
theorem plan_failure_short_circuits (sessionId prompt : String)
    (imageRes : Except Unit String) (audioRes : Except Unit AudioData)
    (h : trimIsEmpty prompt = false) :
    handleGenerate sessionId prompt (Except.error ()) imageRes audioRes
      = { error := some genericErrorText, calledImage := false,
          calledAudio := false, created := none } := by
  simp [handleGenerate, h]

/-- Witness for C7 at concrete image and audio outcomes. -/
theorem plan_failure_short_circuits_witness :
    handleGenerate ("1") ("ocean at sunset") (Except.error ())
        (Except.ok ("data:image/jpeg")) (Except.ok sampleAudio)
      = { error := some genericErrorText, calledImage := false,
          calledAudio := false, created := none } :=
  plan_failure_short_circuits ("1") ("ocean at sunset")
    (Except.ok ("data:image/jpeg")) (Except.ok sampleAudio) (by decide)

/-- C8: recognition errors of category no-speech or aborted leave the state
unchanged; a permission-denied category forces listening off; every other
code leaves the state unchanged; no error ever touches the play, mute,
ambient or progress state. -/
theorem recognition_error_handling :
    (∀ (a : Bool) (s : PlayerState),
        onRecognitionError a ("no-speech") s = s ∧
        onRecognitionError a ("aborted") s = s) ∧
    (∀ s : PlayerState,
        onRecognitionError true ("not-allowed") s
            = { s with isListening := false } ∧
          onRecognitionError true ("service-not-allowed") s
            = { s with isListening := false }) ∧
    (∀ (a : Bool) (code : String) (s : PlayerState),
        code ≠ "no-speech" → code ≠ "aborted" → code ≠ "not-allowed" →
          code ≠ "service-not-allowed" → onRecognitionError a code s = s) ∧
    (∀ (a : Bool) (code : String) (s : PlayerState),
        (onRecognitionError a code s).isPlaying = s.isPlaying ∧
        (onRecognitionError a code s).isMuted = s.isMuted ∧
        (onRecognitionError a code s).isAmbientOn = s.isAmbientOn ∧
        (onRecognitionError a code s).progress = s.progress ∧
        (onRecognitionError a code s).pauseTime = s.pauseTime ∧
        (onRecognitionError a code s).startTime = s.startTime ∧
        (onRecognitionError a code s).ambientPlaying = s.ambientPlaying) := by
  refine ⟨fun a s => ⟨rfl, rfl⟩, fun s => ⟨rfl, rfl⟩, ?_, ?_⟩
  · intro a code s h1 h2 h3 h4
    simp [onRecognitionError, h1, h2, h3, h4]
  · intro a code s
    unfold onRecognitionError
    split_ifs <;> simp

/-- Helper: a command matching the pause keyword set takes the pause branch
of the dispatcher. -/
theorem dispatch_matches_pause (hc hb hg hs : Bool) (now duration : ℚ)
    (c : String) (s : PlayerState)
    (h : hasKeyword c pauseKeywords = true) :
    dispatchCommand hc hb hg hs now duration c s
      = (if s.isPlaying then pauseAudio hs hc now s else s) := by
  simp [dispatchCommand, h]

/-- Helper: past the pause set, a play-keyword command takes the play
branch. -/
theorem dispatch_matches_play (hc hb hg hs : Bool) (now duration : ℚ)
    (c : String) (s : PlayerState)
    (h0 : hasKeyword c pauseKeywords = false)
    (h : hasKeyword c playKeywords = true) :
    dispatchCommand hc hb hg hs now duration c s
      = (if !s.isPlaying then playAudio hc hb hg now duration s else s) := by
  simp [dispatchCommand, h0, h]

/-- Helper: past the pause and play sets, a mute-keyword command takes the
mute branch. -/
theorem dispatch_matches_mute (hc hb hg hs : Bool) (now duration : ℚ)
    (c : String) (s : PlayerState)
    (h0 : hasKeyword c pauseKeywords = false)
    (h1 : hasKeyword c playKeywords = false)
    (h : hasKeyword c muteKeywords = true) :
    dispatchCommand hc hb hg hs now duration c s
      = (if !s.isMuted then toggleMute hg s else s) := by
  simp [dispatchCommand, h0, h1, h]

/-- Helper: past the first three sets, an unmute-keyword command takes the
unmute branch. -/
theorem dispatch_matches_unmute (hc hb hg hs : Bool) (now duration : ℚ)
    (c : String) (s : PlayerState)
    (h0 : hasKeyword c pauseKeywords = false)
    (h1 : hasKeyword c playKeywords = false)
    (h2 : hasKeyword c muteKeywords = false)
    (h : hasKeyword c unmuteKeywords = true) :
    dispatchCommand hc hb hg hs now duration c s
      = (if s.isMuted then toggleMute hg s else s) := by
  simp [dispatchCommand, h0, h1, h2, h]

/-- Helper: past the first four sets, an ambient-on command takes the
ambient-on branch. -/
theorem dispatch_matches_ambient_on (hc hb hg hs : Bool) (now duration : ℚ)
    (c : String) (s : PlayerState)
    (h0 : hasKeyword c pauseKeywords = false)
    (h1 : hasKeyword c playKeywords = false)
    (h2 : hasKeyword c muteKeywords = false)
    (h3 : hasKeyword c unmuteKeywords = false)
    (h : hasKeyword c ambientOnKeywords = true) :
    dispatchCommand hc hb hg hs now duration c s
      = (if !s.isAmbientOn then setAmbient true s else s) := by
  simp [dispatchCommand, h0, h1, h2, h3, h]

/-- Helper: past the first five sets, an ambient-off command takes the
ambient-off branch. -/
theorem dispatch_matches_ambient_off (hc hb hg hs : Bool) (now duration : ℚ)
    (c : String) (s : PlayerState)
    (h0 : hasKeyword c pauseKeywords = false)
    (h1 : hasKeyword c playKeywords = false)
    (h2 : hasKeyword c muteKeywords = false)
    (h3 : hasKeyword c unmuteKeywords = false)
    (h4 : hasKeyword c ambientOnKeywords = false)
    (h : hasKeyword c ambientOffKeywords = true) :
    dispatchCommand hc hb hg hs now duration c s
      = (if s.isAmbientOn then setAmbient false s else s) := by
  simp [dispatchCommand, h0, h1, h2, h3, h4, h]

/-- Helper: a command matching no keyword set is ignored. -/
theorem dispatch_matches_none (hc hb hg hs : Bool) (now duration : ℚ)
    (c : String) (s : PlayerState)
    (h0 : hasKeyword c pauseKeywords = false)
    (h1 : hasKeyword c playKeywords = false)
    (h2 : hasKeyword c muteKeywords = false)
    (h3 : hasKeyword c unmuteKeywords = false)
    (h4 : hasKeyword c ambientOnKeywords = false)
    (h5 : hasKeyword c ambientOffKeywords = false) :
    dispatchCommand hc hb hg hs now duration c s = s := by
  simp [dispatchCommand, h0, h1, h2, h3, h4, h5]

/-- C1: the dispatcher tries the keyword sets in priority order, each branch
fires only under its state guard and is otherwise a no-op, and the no-op
leaves the whole playback state unchanged; in particular the utterances
pause while paused, play while playing, and unmute while muted leave the
state unchanged. -/
theorem voice_dispatch_guards :
    (∀ (hc hb hg hs : Bool) (now duration : ℚ) (c : String)
        (s : PlayerState),
        hasKeyword c pauseKeywords = true →
          dispatchCommand hc hb hg hs now duration c s
            = (if s.isPlaying then pauseAudio hs hc now s else s)) ∧
    (∀ (hc hb hg hs : Bool) (now duration : ℚ) (c : String)
        (s : PlayerState),
        hasKeyword c pauseKeywords = false →
          hasKeyword c playKeywords = true →
            dispatchCommand hc hb hg hs now duration c s
              = (if !s.isPlaying then
                   playAudio hc hb hg now duration s else s)) ∧
    (∀ (hc hb hg hs : Bool) (now duration : ℚ) (c : String)
        (s : PlayerState),
        hasKeyword c pauseKeywords = false →
          hasKeyword c playKeywords = false →
            hasKeyword c muteKeywords = true →
              dispatchCommand hc hb hg hs now duration c s
                = (if !s.isMuted then toggleMute hg s else s)) ∧
    (∀ (hc hb hg hs : Bool) (now duration : ℚ) (c : String)
        (s : PlayerState),
        hasKeyword c pauseKeywords = false →
          hasKeyword c playKeywords = false →
            hasKeyword c muteKeywords = false →
              hasKeyword c unmuteKeywords = true →
                dispatchCommand hc hb hg hs now duration c s
                  = (if s.isMuted then toggleMute hg s else s)) ∧
    (∀ (hc hb hg hs : Bool) (now duration : ℚ) (c : String)
        (s : PlayerState),
        hasKeyword c pauseKeywords = false →
          hasKeyword c playKeywords = false →
            hasKeyword c muteKeywords = false →
              hasKeyword c unmuteKeywords = false →
                hasKeyword c ambientOnKeywords = true →
                  dispatchCommand hc hb hg hs now duration c s
                    = (if !s.isAmbientOn then setAmbient true s else s)) ∧
    (∀ (hc hb hg hs : Bool) (now duration : ℚ) (c : String)
        (s : PlayerState),
        hasKeyword c pauseKeywords = false →
          hasKeyword c playKeywords = false →
            hasKeyword c muteKeywords = false →
              hasKeyword c unmuteKeywords = false →
                hasKeyword c ambientOnKeywords = false →
                  hasKeyword c ambientOffKeywords = true →
                    dispatchCommand hc hb hg hs now duration c s
                      = (if s.isAmbientOn then setAmbient false s else s)) ∧
    (∀ (hc hb hg hs : Bool) (now duration : ℚ) (s : PlayerState),
        (s.isPlaying = false →
            onResult hc hb hg hs now duration ("pause") s = s) ∧
        (s.isPlaying = true →
            onResult hc hb hg hs now duration ("play") s = s) ∧
        (s.isMuted = true →
            onResult hc hb hg hs now duration ("unmute") s = s) ∧
        (s.isMuted = true →
            onResult hc hb hg hs now duration ("mute") s = s) ∧
        (s.isAmbientOn = true →
            onResult hc hb hg hs now duration ("ambient on") s = s)) := by
  refine ⟨dispatch_matches_pause, dispatch_matches_play,
    dispatch_matches_mute, dispatch_matches_unmute,
    dispatch_matches_ambient_on, dispatch_matches_ambient_off, ?_⟩
  intro hc hb hg hs now duration s
  refine ⟨fun hp => ?_, fun hp => ?_, fun hm => ?_, fun hm => ?_,
    fun ha => ?_⟩
  · have e : strTrim (strToLower ("pause")) = "pause" := by decide
    unfold onResult
    rw [e, dispatch_matches_pause hc hb hg hs now duration ("pause") s
      (by decide), hp]
    simp
  · have e : strTrim (strToLower ("play")) = "play" := by decide
    unfold onResult
    rw [e, dispatch_matches_play hc hb hg hs now duration ("play") s
      (by decide) (by decide), hp]
    simp
  · have e : strTrim (strToLower ("unmute")) = "unmute" := by decide
    unfold onResult
    rw [e, dispatch_matches_mute hc hb hg hs now duration ("unmute") s
      (by decide) (by decide) (by decide), hm]
    simp
  · have e : strTrim (strToLower ("mute")) = "mute" := by decide
    unfold onResult
    rw [e, dispatch_matches_mute hc hb hg hs now duration ("mute") s
      (by decide) (by decide) (by decide), hm]
    simp
  · have e : strTrim (strToLower ("ambient on")) = "ambient on" := by decide
    unfold onResult
    rw [e, dispatch_matches_ambient_on hc hb hg hs now duration
      ("ambient on") s (by decide) (by decide) (by decide) (by decide)
      (by decide), ha]
    simp

/-- Helper: playAudio never touches the ambient flag. -/
theorem playAudio_keeps_ambient_flag (hc hb hg : Bool) (now duration : ℚ)
    (s : PlayerState) :
    (playAudio hc hb hg now duration s).isAmbientOn = s.isAmbientOn := by
  simp only [playAudio, updateProgress]
  split_ifs <;> rfl

/-- Helper: pauseAudio never touches the ambient flag. -/
theorem pauseAudio_keeps_ambient_flag (hs hc : Bool) (now : ℚ)
    (s : PlayerState) :
    (pauseAudio hs hc now s).isAmbientOn = s.isAmbientOn := by
  simp only [pauseAudio]
  split_ifs <;> rfl

/-- C3: in every state the player can reach, the ambient track audibly plays
exactly when the main playback is playing and the ambient flag is on, and
toggling the play state while ambient is off, or the ambient flag while not
playing, leaves the ambient track silent. -/
theorem ambient_iff_playing_and_on :
    (∀ (es : List PlayerEvent) (s0 : PlayerState),
        (runPlayer es s0).ambientPlaying
          = ((runPlayer es s0).isPlaying && (runPlayer es s0).isAmbientOn)) ∧
    (∀ (r : AudioRefs) (now duration : ℚ) (s : PlayerState),
        s.isAmbientOn = false →
          (stepPlayer (PlayerEvent.togglePlay r now duration) s).ambientPlaying
            = false) ∧
    (∀ s : PlayerState, s.isPlaying = false →
        (stepPlayer PlayerEvent.ambientClick s).ambientPlaying = false) := by
  refine ⟨?_, ?_, ?_⟩
  · intro es
    induction es with
    | nil => intro s0; rfl
    | cons e es ih => intro s0; exact ih (applyPlayerEvent e (syncAmbient s0))
  · intro r now duration s h
    have hamb :
        (applyPlayerEvent (PlayerEvent.togglePlay r now duration) s).isAmbientOn
          = false := by
      simp only [applyPlayerEvent]
      split_ifs
      · rw [pauseAudio_keeps_ambient_flag]; exact h
      · rw [playAudio_keeps_ambient_flag]; exact h
    simp [stepPlayer, syncAmbient, hamb]
  · intro s h
    simp [stepPlayer, applyPlayerEvent, syncAmbient, toggleAmbient, h]

/-- Helper: a progress pass never moves the start epoch. -/
theorem updateProgress_startTime (now duration : ℚ) (s : PlayerState) :
    (updateProgress now duration s).startTime = s.startTime := by
  simp only [updateProgress]
  split_ifs <;> rfl

/-- Helper: displayed value of one progress pass for a nonzero duration. -/
theorem updateProgress_progress (now duration : ℚ) (s : PlayerState)
    (hd : duration ≠ 0) :
    (updateProgress now duration s).progress
      = if 100 ≤ (now - s.startTime) / duration * 100 then 100
        else (now - s.startTime) / duration * 100 := by
  simp only [updateProgress, if_neg hd]
  split_ifs <;> rfl

/-- Helper: across two successive progress passes with a non-decreasing
clock, the displayed progress does not decrease. -/
theorem tick_monotone (t1 t2 duration : ℚ) (s : PlayerState)
    (hd : 0 < duration) (hle : t1 ≤ t2) :
    (updateProgress t1 duration s).progress
      ≤ (updateProgress t2 duration (updateProgress t1 duration s)).progress := by
  have hd0 : duration ≠ 0 := ne_of_gt hd
  rw [updateProgress_progress t1 duration s hd0,
    updateProgress_progress t2 duration _ hd0, updateProgress_startTime]
  have hple : (t1 - s.startTime) / duration * 100
      ≤ (t2 - s.startTime) / duration * 100 := by
    have h1 : t1 - s.startTime ≤ t2 - s.startTime := by linarith
    exact mul_le_mul_of_nonneg_right
      ((div_le_div_iff_of_pos_right hd).mpr h1) (by norm_num)
  split_ifs <;> linarith

/-- Helper: playing right after a pause starts the source at the recorded
offset, recomputes the epoch as the resume clock minus that offset, and the
synchronous progress pass displays the offset percentage, not zero. -/
theorem resume_from_offset (now now2 duration : ℚ) (s : PlayerState)
    (hd : 0 < duration) (hlt : now - s.startTime < duration) :
    playAudio true true true now2 duration (pauseAudio true true now s)
      = { s with pauseTime := now - s.startTime,
                 sourceOffset := now - s.startTime,
                 startTime := now2 - (now - s.startTime),
                 isPlaying := true, loopActive := true,
                 progress := (now - s.startTime) / duration * 100 } := by
  have hd0 : duration ≠ 0 := ne_of_gt hd
  have hper : (now - s.startTime) / duration * 100 < 100 := by
    have h1 : (now - s.startTime) / duration < 1 := (div_lt_one hd).mpr hlt
    nlinarith
  have e : playAudio true true true now2 duration (pauseAudio true true now s)
      = updateProgress now2 duration
          { s with pauseTime := now - s.startTime,
                   sourceOffset := now - s.startTime,
                   startTime := now2 - (now - s.startTime),
                   isPlaying := true, loopActive := false } := rfl
  rw [e]
  simp only [updateProgress]
  rw [if_neg hd0]
  have harg : now2 - (now2 - (now - s.startTime)) = now - s.startTime := by
    ring
  rw [harg, if_neg (not_le.mpr hper)]

/-- C2: while playing, successive progress passes are non-decreasing; a pause
records the offset as clock minus epoch, cancels the loop and leaves the
displayed progress exactly where it was; a subsequent play resumes the source
and the progress computation from that frozen offset, which is positive, not
zero, whenever the frozen offset is. -/
theorem progress_monotone_freeze_resume :
    (∀ (t1 t2 duration : ℚ) (s : PlayerState), 0 < duration → t1 ≤ t2 →
        (updateProgress t1 duration s).progress
          ≤ (updateProgress t2 duration
              (updateProgress t1 duration s)).progress) ∧
    (∀ (now : ℚ) (s : PlayerState),
        pauseAudio true true now s
          = { s with pauseTime := now - s.startTime, isPlaying := false,
                     loopActive := false }) ∧
    (∀ (hs hc : Bool) (now : ℚ) (s : PlayerState),
        (pauseAudio hs hc now s).progress = s.progress) ∧
    (∀ (now now2 duration : ℚ) (s : PlayerState),
        0 < duration → now - s.startTime < duration →
          playAudio true true true now2 duration (pauseAudio true true now s)
            = { s with pauseTime := now - s.startTime,
                       sourceOffset := now - s.startTime,
                       startTime := now2 - (now - s.startTime),
                       isPlaying := true, loopActive := true,
                       progress := (now - s.startTime) / duration * 100 }) ∧
    (∀ (now now2 duration : ℚ) (s : PlayerState),
        0 < duration → 0 < now - s.startTime → now - s.startTime < duration →
          0 < (playAudio true true true now2 duration
                (pauseAudio true true now s)).progress) := by
  refine ⟨tick_monotone, fun now s => rfl, ?_, resume_from_offset, ?_⟩
  · intro hs hc now s
    simp only [pauseAudio]
    split_ifs <;> rfl
  · intro now now2 duration s hd h0 hlt
    rw [resume_from_offset now now2 duration s hd hlt]
    exact mul_pos (div_pos h0 hd) (by norm_num)

/-- Helper: a completed send on an idle chat appends exactly its user and
response pair and ends idle, provided the input is not blank and the
response, when the call succeeded, is non-empty. -/
theorem handleSend_completes (s : ChatState) (op : SendOp)
    (hload : s.isLoading = false) (hop : opCompletes op = true) :
    handleSend op.tUser op.tBot op.outcome { s with input := op.input }
      = { input := "", messages := s.messages ++ sendPair op,
          isLoading := false } := by
  have h1 : trimIsEmpty op.input = false := by
    simp [opCompletes] at hop
    exact hop.1
  cases hout : op.outcome with
  | success r =>
    have h2 : r.data.isEmpty = false := by
      simp [opCompletes, hout] at hop
      simpa using hop.2
    simp [handleSend, h1, hload, hout, h2, sendPair]
  | failure =>
    simp [handleSend, h1, hload, hout, sendPair]

/-- Helper: the transcript after any sequence of completed sends from an idle
chat is the starting transcript followed by the send pairs in order. -/
theorem runSends_messages (ops : List SendOp) :
    ∀ s : ChatState, s.isLoading = false →
      (∀ op ∈ ops, opCompletes op = true) →
      (runSends ops s).messages = s.messages ++ (ops.map sendPair).flatten := by
  induction ops with
  | nil =>
    intro s _ _
    simp [runSends]
  | cons op ops ih =>
    intro s hload hops
    have hop : opCompletes op = true := hops op (by simp)
    have hrest : ∀ p ∈ ops, opCompletes p = true := by
      intro p hp
      exact hops p (by simp [hp])
    have e1 : runSends (op :: ops) s
        = runSends ops
            (handleSend op.tUser op.tBot op.outcome
              { s with input := op.input }) := rfl
    rw [e1, handleSend_completes s op hload hop, ih _ rfl hrest]
    simp

/-- Helper: every completed send contributes exactly two messages. -/
theorem sendPair_length (op : SendOp) : (sendPair op).length = 2 := by
  cases h : op.outcome <;> simp [sendPair, h]

/-- Helper: the joined send pairs of a run have twice as many messages as
there are sends. -/
theorem sendPairs_join_length (ops : List SendOp) :
    ((ops.map sendPair).flatten).length = 2 * ops.length := by
  induction ops with
  | nil => rfl
  | cons op ops ih =>
    simp [sendPair_length, ih]
    ring

/-- C4, amended: after any sequence of completed sends whose inputs are not
blank and whose outcomes are a failure or a non-empty response, the
transcript is the greeting followed by the user and response pairs in send
order, hence has exactly 1 + 2N entries; a failed send contributes the
generic connectivity-failure message. -/
theorem chat_transcript_shape (ops : List SendOp)
    (h : ∀ op ∈ ops, opCompletes op = true) :
    (runSends ops initialChatState).messages
        = initialMessages ++ (ops.map sendPair).flatten ∧
      (runSends ops initialChatState).messages.length = 1 + 2 * ops.length := by
  have e := runSends_messages ops initialChatState rfl h
  refine ⟨e, ?_⟩
  rw [e, List.length_append, sendPairs_join_length]
  rfl

/-- Sample send receiving a non-empty response. -/
def sampleSendOk : SendOp where
  input := "hi"
  outcome := ChatOutcome.success ("ok")
  tUser := 1
  tBot := 2

/-- Sample send whose call fails. -/
def sampleSendFail : SendOp where
  input := "again"
  outcome := ChatOutcome.failure
  tUser := 3
  tBot := 4

/-- Witness for C4 on a two-send run, one succeeding and one failing. -/
theorem chat_transcript_shape_witness :
    (runSends [sampleSendOk, sampleSendFail] initialChatState).messages.length
      = 1 + 2 * ([sampleSendOk, sampleSendFail] : List SendOp).length :=
  (chat_transcript_shape [sampleSendOk, sampleSendFail] (by decide)).2

/-- Send completing with an empty response text: the service resolved but
returned nothing truthy. -/
def emptyReplySend : SendOp where
  input := "hi"
  outcome := ChatOutcome.success ("")
  tUser := 1
  tBot := 2

/-- Counterexample to C4 as stated: one completed send whose service response
is the empty string leaves a transcript of 2, not 1 + 2 entries, because
handleSend only appends a reply when the response text is truthy. -/
theorem chat_transcript_counterexample :
    (runSends [emptyReplySend] initialChatState).messages.length = 2 ∧
      ¬((runSends [emptyReplySend] initialChatState).messages.length
          = 1 + 2 * ([emptyReplySend] : List SendOp).length) := by
  decide

end ZenSpace
